import Mathlib

/-!
Verification development for the `whoa-scope` settings module
(`Software/settings_manager.py`).

The module is a JSON-backed key/value settings store plus a font-file
scanner.  We give a shallow embedding:

* Python/JSON values that the module traffics in (strings, floats,
  booleans, and `None`/`null`) become the inductive `Value`.  Floats are
  modelled as `Rat`: the module performs no floating-point arithmetic —
  numeric values are only stored, compared and returned.
* Python `dict`s become association lists with first-match lookup and
  update-in-place-or-append insertion (Python dicts keep the position of
  an updated key and append new keys at the end).
* Kivy's `JsonStore` (the backing `settings.json` document) becomes a
  list of named entries.  Each entry is either a JSON object with named
  fields (`StoreEntry.obj`) — the normal shape written by `put(key,
  value=v)` is the one-field object `{"value": v}` — or a JSON value
  that is not an object (`StoreEntry.nonObj`), on which attribute lookup
  `stored.get('value', ...)` raises and the `except` branch of
  `_load_settings` fires.
* Filesystem-dependent inputs (the fonts directory listing, the backing
  file contents) are parameters of the corresponding functions.
-/

/-- A Python/JSON value as handled by the settings module: a string, a
number (Python float, modelled as `Rat` since no arithmetic is done on
it), a boolean, or `None`/JSON `null`. -/
inductive Value where
  | str (s : String)
  | num (q : Rat)
  | bool (b : Bool)
  | null
  deriving DecidableEq, Repr

/-- First-match lookup in an association list: `d.get(key)` /
`key in d` on a Python dict (whose keys are unique). -/
def lookupA {α : Type} : List (String × α) → String → Option α
  | [], _ => none
  | (k, v) :: t, key => if k = key then some v else lookupA t key

/-- Python dict assignment `d[key] = val`: update the existing entry in
place if the key is present, otherwise append the new entry at the end. -/
def insertA {α : Type} : List (String × α) → String → α → List (String × α)
  | [], key, val => [(key, val)]
  | (k, v) :: t, key, val =>
      if k = key then (k, val) :: t else (k, v) :: insertA t key val

/-! ### Font scanner (`get_fonts_directory`, `scan_available_fonts`)

String helpers follow the Python string methods used at
`settings_manager.py:41-48`.  Strings are processed as `List Char`
throughout so that every function is structurally recursive and
evaluates inside the kernel. -/

/-- Does `p` occur at the head of `l`?  (Used to detect an occurrence of
a pattern during `str.replace`.) -/
def headMatches : List Char → List Char → Bool
  | [], _ => true
  | _ :: _, [] => false
  | p :: ps, c :: cs => p = c && headMatches ps cs

/-- Fuel-driven worker for Python `str.replace`: scan left to right,
replacing each non-overlapping occurrence of `pat` and resuming after
it.  The fuel only bounds the recursion; `fuel = length of the text`
suffices because every step consumes at least one character of the text
when `pat` is non-empty. -/
def replaceFuel (pat rep : List Char) : Nat → List Char → List Char
  | 0, l => l
  | _ + 1, [] => []
  | fuel + 1, c :: cs =>
      if headMatches pat (c :: cs) then
        rep ++ replaceFuel pat rep fuel (List.drop (pat.length - 1) cs)
      else
        c :: replaceFuel pat rep fuel cs

/-- Python `s.replace(pat, rep)` for a non-empty pattern: replace every
non-overlapping occurrence, scanning left to right.  (The module only
ever calls `replace` with non-empty literal patterns; Python's special
behaviour for an empty pattern is out of scope and the function returns
its input in that case.) -/
def pyReplace (s pat rep : String) : String :=
  if pat.data = [] then s
  else String.mk (replaceFuel pat.data rep.data s.data.length s.data)

/-- Python `s.strip()`: remove whitespace from both ends. -/
def pyStrip (s : String) : String :=
  String.mk (((s.data.dropWhile Char.isWhitespace).reverse.dropWhile
    Char.isWhitespace).reverse)

/-- The root part of Python `os.path.splitext(s)` for a bare filename
(no directory separators): cut at the last dot, unless every character
before that dot is itself a dot, in which case the name is returned
unchanged (so `.cshrc` keeps its leading-dot name). -/
def splitextRoot (s : String) : String :=
  let rev := s.data.reverse
  let after := rev.takeWhile (fun c => c ≠ '.')
  if after.length = rev.length then s
  else
    let before := (rev.drop (after.length + 1)).reverse
    if before.any (fun c => c ≠ '.') then String.mk before else s

/-- The noise substrings stripped from a derived font name, in the order
the source iterates over them (`settings_manager.py:47`). -/
def NOISE_SUFFIXES : List String :=
  ["Regular", "VariableFont wdth,wght", "VariableFont"]

/-- Display-name derivation of `scan_available_fonts`
(`settings_manager.py:41-48`): drop the extension, turn `-` and `_`
into spaces, then for each noise substring remove all its occurrences
and strip surrounding whitespace. -/
def displayNameOf (filename : String) : String :=
  let name := splitextRoot filename
  let d := pyReplace (pyReplace name "-" " ") "_" " "
  NOISE_SUFFIXES.foldl (fun d suf => pyStrip (pyReplace d suf "")) d

/-- Does the filename end with the given suffix?  This is how the glob
patterns `*.ttf`, `*.otf`, `*.TTF`, `*.OTF` select files (glob matching
is case-sensitive on the `.` extension text). -/
def hasExt (suffix fname : String) : Bool :=
  headMatches suffix.data.reverse fname.data.reverse

/-- The extension suffixes of the four glob patterns at
`settings_manager.py:38`. -/
def EXT_SUFFIXES : List String := [".ttf", ".otf", ".TTF", ".OTF"]

/-- Model of `scan_available_fonts()` (`settings_manager.py:29-51`).  The
filesystem input is abstracted as `none` when `get_fonts_directory()`
finds no directory, or `some (dir, files)` with the directory path and
its file listing (in enumeration order).  For each glob pattern in turn,
every matching file contributes `display name ↦ dir/file`; a later
match overwrites an earlier one that derived the same display name. -/
def scan_available_fonts (fontsDir : Option (String × List String)) :
    List (String × String) :=
  match fontsDir with
  | none => []
  | some (dir, files) =>
      EXT_SUFFIXES.foldl
        (fun fonts ext =>
          (files.filter (fun f => hasExt ext f)).foldl
            (fun fonts fname =>
              insertA fonts (displayNameOf fname) (dir ++ "/" ++ fname))
            fonts)
        []

/-- Model of `default_font` (`settings_manager.py:58`): the first key of the font
catalog if it is non-empty, else the hardcoded Kivy default `'Roboto'`. -/
def default_font (avail : List (String × String)) : String :=
  match avail with
  | [] => "Roboto"
  | (name, _) :: _ => name

/-! ### Settings store (`DEFAULT_SETTINGS`, `SettingsManager`)

`DEFAULT_SETTINGS` is built from `default_font`, which depends on the
scanned catalog; the store development is therefore parameterised by the
default font name `df`. -/

/-- Model of `DEFAULT_SETTINGS` (`settings_manager.py:59-63`), given the default
font name `df` computed by `default_font`.  The float `1.0` is the
rational `1`. -/
def DEFAULT_SETTINGS (df : String) : List (String × Value) :=
  [("font_name", Value.str df),
   ("font_scale", Value.num 1),
   ("launch_maximized", Value.bool false)]

/-- One entry of the backing `settings.json` document, keyed by a
settings key.  `JsonStore.put(key, value=v)` writes the object
`{"value": v}`, i.e. `obj [("value", v)]`; a hand-edited or corrupt file
may hold an object without a `"value"` field, or a JSON value that is
not an object at all (`nonObj`), on which `stored.get('value', ...)`
raises and `_load_settings` falls back to the default. -/
inductive StoreEntry where
  | obj (fields : List (String × Value))
  | nonObj
  deriving DecidableEq, Repr

/-- The backing store: the parsed contents of `settings.json`, a JSON
object mapping settings keys to entries. -/
def Store := List (String × StoreEntry)
  deriving DecidableEq, Repr

/-- The state of a `SettingsManager` instance: `store` is `none` until
`initialize()` has opened the backing store (`self._store = None`), and
`settings` is the in-memory settings dict (`self._settings`). -/
structure SettingsManager where
  store : Option Store
  settings : List (String × Value)
  deriving DecidableEq, Repr

/-- Model of `SettingsManager.__init__` on a fresh instance
(`settings_manager.py:85-90`): no backing store, in-memory settings a
copy of `DEFAULT_SETTINGS`. -/
def SettingsManager.mk0 (df : String) : SettingsManager :=
  ⟨none, DEFAULT_SETTINGS df⟩

/-- The value `_load_settings` ends up storing for key `key` with
default `dv` (`settings_manager.py:129-136`): if the store lacks the
key, the default; if the stored entry is an object, its `"value"` field
if present, else the default; if reading the entry raises (it is not an
object), the default via the `except` branch. -/
def loadOne (st : Store) (key : String) (dv : Value) : Value :=
  match lookupA st key with
  | none => dv
  | some (StoreEntry.obj fields) => (lookupA fields "value").getD dv
  | some StoreEntry.nonObj => dv

/-- Model of `SettingsManager._load_settings` (`settings_manager.py:123-136`):
a no-op when no backing store is open; otherwise overwrite the in-memory
value of every key of `DEFAULT_SETTINGS`, in order, with the loaded
value. -/
def SettingsManager.load_settings (df : String) (s : SettingsManager) :
    SettingsManager :=
  match s.store with
  | none => s
  | some st =>
      let loaded := (DEFAULT_SETTINGS df).foldl
        (fun acc kd => insertA acc kd.1 (loadOne st kd.1 kd.2)) s.settings
      { s with settings := loaded }

/-- Model of `SettingsManager.initialize` (`settings_manager.py:117-121`): open
the backing store — `JsonStore(settings_path)` parses the existing file,
or yields an empty document for a fresh file, abstracted here as the
parameter `file` — then run `_load_settings`. -/
def SettingsManager.initStore (df : String) (file : Store)
    (s : SettingsManager) : SettingsManager :=
  SettingsManager.load_settings df { s with store := some file }

/-- Model of `SettingsManager._save_setting` (`settings_manager.py:138-142`):
a no-op when no backing store is open; otherwise
`self._store.put(key, value=value)` replaces the entry for `key` with
the object `{"value": value}`. -/
def SettingsManager.save_setting (st : Option Store) (key : String)
    (v : Value) : Option Store :=
  match st with
  | none => none
  | some s => some (insertA s key (StoreEntry.obj [("value", v)]))

/-- Model of `SettingsManager.get` (`settings_manager.py:144-146`):
`self._settings.get(key, default if default is not None else
DEFAULT_SETTINGS.get(key))`.  `Value.null` is Python `None`, both as the
not-supplied caller default and as the result when every fallback is
exhausted. -/
def SettingsManager.get (s : SettingsManager) (df key : String)
    (default : Value := Value.null) : Value :=
  match lookupA s.settings key with
  | some v => v
  | none =>
      if default ≠ Value.null then default
      else (lookupA (DEFAULT_SETTINGS df) key).getD Value.null

/-- Model of `SettingsManager.set` (`settings_manager.py:148-151`): update the
in-memory dict, then `_save_setting`. -/
def SettingsManager.set (s : SettingsManager) (key : String) (v : Value) :
    SettingsManager :=
  ⟨SettingsManager.save_setting s.store key v, insertA s.settings key v⟩

/-- Model of `SettingsManager.set` together with its exception behaviour: Python
runs `self._settings[key] = value` first and only then
`self._save_setting(key, value)`, whose `store.put` may raise (e.g. an
unwritable disk).  `writeFails` says whether that write raises; the
`Except.error` carries the state observable by the caller who catches
the propagated exception: in-memory update applied, backing store
unchanged.  `put` is never reached when no store is open, so
`writeFails` is irrelevant then. -/
def SettingsManager.setRun (s : SettingsManager) (key : String)
    (v : Value) (writeFails : Bool) :
    Except SettingsManager SettingsManager :=
  let mem := insertA s.settings key v
  match s.store with
  | none => Except.ok ⟨none, mem⟩
  | some st =>
      if writeFails then Except.error ⟨some st, mem⟩
      else Except.ok ⟨some (insertA st key (StoreEntry.obj [("value", v)])), mem⟩

/-- Property getter `font_name` (`settings_manager.py:153-155`). -/
def SettingsManager.font_name (s : SettingsManager) (df : String) : Value :=
  s.get df "font_name"

/-- Property setter `font_name` (`settings_manager.py:157-159`). -/
def SettingsManager.set_font_name (s : SettingsManager) (v : Value) :
    SettingsManager :=
  s.set "font_name" v

/-- Property getter `font_scale` (`settings_manager.py:161-163`). -/
def SettingsManager.font_scale (s : SettingsManager) (df : String) : Value :=
  s.get df "font_scale"

/-- Property setter `font_scale` (`settings_manager.py:165-167`). -/
def SettingsManager.set_font_scale (s : SettingsManager) (v : Value) :
    SettingsManager :=
  s.set "font_scale" v

/-- Property getter `launch_maximized` (`settings_manager.py:169-171`). -/
def SettingsManager.launch_maximized (s : SettingsManager) (df : String) :
    Value :=
  s.get df "launch_maximized"

/-- Property setter `launch_maximized` (`settings_manager.py:173-175`). -/
def SettingsManager.set_launch_maximized (s : SettingsManager) (v : Value) :
    SettingsManager :=
  s.set "launch_maximized" v

/-! ### Predicates used by the claims -/

/-- Two values have the same Python type (both strings, both numbers,
both booleans, or both `None`). -/
def sameKind : Value → Value → Bool
  | Value.str _, Value.str _ => true
  | Value.num _, Value.num _ => true
  | Value.bool _, Value.bool _ => true
  | Value.null, Value.null => true
  | _, _ => false

/-- Value `v` is of the expected type for settings key `k`: `k` has a
default and `v` has the same Python type as that default. -/
def expectedType (df k : String) (v : Value) : Prop :=
  ∃ dv, lookupA (DEFAULT_SETTINGS df) k = some dv ∧ sameKind dv v = true

/-- Every key of `DEFAULT_SETTINGS` resolves in the in-memory record to
a value that is not `None`. -/
def dsResolvable (df : String) (s : SettingsManager) : Prop :=
  ∀ k dv, lookupA (DEFAULT_SETTINGS df) k = some dv →
    ∃ v, lookupA s.settings k = some v ∧ v ≠ Value.null

/-- The backing store holds no `None` stored values: no entry is an
object whose `"value"` field is `null`. -/
def storeNonNull (file : Store) : Prop :=
  ∀ k fields, lookupA file k = some (StoreEntry.obj fields) →
    ∀ v, lookupA fields "value" = some v → v ≠ Value.null

/-! ### Association-list lemmas -/

@[simp]
theorem lookupA_insertA_self {α : Type} (l : List (String × α)) (k : String) (v : α) :
    lookupA (insertA l k v) k = some v := by
  induction l with
  | nil => simp [insertA, lookupA]
  | cons hd t ih =>
      obtain ⟨k0, v0⟩ := hd
      by_cases h : k0 = k
      · simp [insertA, lookupA, h]
      · simp [insertA, lookupA, h, ih]

theorem lookupA_insertA_ne {α : Type} (l : List (String × α)) (k k' : String) (v : α)
    (h : k' ≠ k) : lookupA (insertA l k v) k' = lookupA l k' := by
  induction l with
  | nil => simp [insertA, lookupA, Ne.symm h]
  | cons hd t ih =>
      obtain ⟨k0, v0⟩ := hd
      by_cases h0 : k0 = k
      · subst h0
        simp [insertA, lookupA, Ne.symm h]
      · simp only [insertA, if_neg h0, lookupA]
        by_cases h1 : k0 = k'
        · simp [h1]
        · simp [h1, ih]

/-! ### Helper lemmas about the store operations -/

theorem store_after_initStore (df : String) (file : Store)
    (s : SettingsManager) :
    (SettingsManager.initStore df file s).store = some file := by
  simp [SettingsManager.initStore, SettingsManager.load_settings]

/-- After `initialize()` with backing contents `file`, the in-memory
value of every key `k` of `DEFAULT_SETTINGS` (with default `dv`) is
exactly `loadOne file k dv`. -/
theorem lookupA_initStore (df : String) (file : Store) (s : SettingsManager)
    (k : String) (dv : Value)
    (hk : lookupA (DEFAULT_SETTINGS df) k = some dv) :
    lookupA (SettingsManager.initStore df file s).settings k
      = some (loadOne file k dv) := by
  simp only [SettingsManager.initStore, SettingsManager.load_settings,
    DEFAULT_SETTINGS, List.foldl]
  simp only [DEFAULT_SETTINGS, lookupA] at hk
  split_ifs at hk with h1 h2 h3
  · subst h1
    injection hk with hk
    subst hk
    rw [lookupA_insertA_ne _ _ _ _ (by decide),
      lookupA_insertA_ne _ _ _ _ (by decide), lookupA_insertA_self]
  · subst h2
    injection hk with hk
    subst hk
    rw [lookupA_insertA_ne _ _ _ _ (by decide), lookupA_insertA_self]
  · subst h3
    injection hk with hk
    subst hk
    rw [lookupA_insertA_self]

/-- The default value of every key of `DEFAULT_SETTINGS` is not `None`. -/
theorem DS_default_ne_null (df k : String) (dv : Value)
    (hk : lookupA (DEFAULT_SETTINGS df) k = some dv) : dv ≠ Value.null := by
  simp only [DEFAULT_SETTINGS, lookupA] at hk
  split_ifs at hk <;> simp only [Option.some.injEq] at hk <;>
    subst hk <;> simp

/-! ### Claim theorems -/

/-- C1: for every key `k` of Default Settings and every value `v` of the
expected type, `set(k, v)` followed by `get(k)` on the same store
instance returns `v`, regardless of the prior in-memory contents and of
whether `initialize()` has been called. -/
theorem C1_set_then_get_roundtrip (df : String) (s : SettingsManager)
    (k : String) (v : Value)
    (hk : (lookupA (DEFAULT_SETTINGS df) k).isSome = true)
    (hv : expectedType df k v) :
    (s.set k v).get df k = v := by
  simp [SettingsManager.set, SettingsManager.get]

/-- Witness for C1: round trip of `font_scale := 2.0` on a fresh
uninitialized store. -/
theorem C1_witness :
    (lookupA (DEFAULT_SETTINGS "Roboto") "font_scale").isSome = true ∧
    expectedType "Roboto" "font_scale" (Value.num 2) ∧
    ((SettingsManager.mk0 "Roboto").set "font_scale" (Value.num 2)).get
      "Roboto" "font_scale" = Value.num 2 :=
  ⟨by decide, ⟨Value.num 1, by decide⟩,
    C1_set_then_get_roundtrip "Roboto" (SettingsManager.mk0 "Roboto")
      "font_scale" (Value.num 2) (by decide) ⟨Value.num 1, by decide⟩⟩

/-- C6: after constructing a fresh store and running `initialize()`
against an empty backing store, `get(k)` equals the module default for
every key `k` of Default Settings. -/
theorem C6_empty_store_yields_defaults (df k : String) (dv : Value)
    (hk : lookupA (DEFAULT_SETTINGS df) k = some dv) :
    ((SettingsManager.mk0 df).initStore df []).get df k = dv := by
  have h := lookupA_initStore df [] (SettingsManager.mk0 df) k dv hk
  have h2 : loadOne [] k dv = dv := rfl
  rw [h2] at h
  simp [SettingsManager.get, h]

/-- Witness for C6 at the key `launch_maximized`. -/
theorem C6_witness :
    lookupA (DEFAULT_SETTINGS "Roboto") "launch_maximized"
      = some (Value.bool false) ∧
    ((SettingsManager.mk0 "Roboto").initStore "Roboto" []).get "Roboto"
      "launch_maximized" = Value.bool false :=
  ⟨by decide, C6_empty_store_yields_defaults "Roboto" "launch_maximized"
    (Value.bool false) (by decide)⟩

/-- C8: the display-name derivation maps `Inter-Regular.ttf` to `Inter`
and `Some_Font-VariableFont.otf` to `Some Font`, both directly and
through a scan of a directory holding exactly those two files. -/
theorem C8_font_display_names :
    displayNameOf "Inter-Regular.ttf" = "Inter" ∧
    displayNameOf "Some_Font-VariableFont.otf" = "Some Font" ∧
    (scan_available_fonts
        (some ("fonts",
          ["Inter-Regular.ttf", "Some_Font-VariableFont.otf"]))).map
      Prod.fst = ["Inter", "Some Font"] := by
  refine ⟨by decide, by decide, by decide⟩

/-- C9: with no font directory, the scan yields the empty catalog and
the `font_name` default falls back to `Roboto`; a non-empty catalog
makes its first entry the `font_name` default. -/
theorem C9_missing_font_directory :
    scan_available_fonts none = [] ∧
    default_font (scan_available_fonts none) = "Roboto" ∧
    lookupA (DEFAULT_SETTINGS (default_font (scan_available_fonts none)))
      "font_name" = some (Value.str "Roboto") ∧
    ∀ (name path : String) (rest : List (String × String)),
      default_font ((name, path) :: rest) = name :=
  ⟨rfl, rfl, by decide, fun _ _ _ => rfl⟩

/-- C10: `set(k, v)` leaves every other key's in-memory value unchanged,
keeps an uninitialized store uninitialized, and, when persistence
happens, writes only the entry for `k`, leaving every other stored
entry unchanged. -/
theorem C10_set_frame (df : String) (s : SettingsManager) (k : String)
    (v : Value) (k' : String) (d : Value) (hne : k' ≠ k) :
    ((s.set k v).get df k' d = s.get df k' d) ∧
    (s.store = none → (s.set k v).store = none) ∧
    (∀ st, s.store = some st →
      (s.set k v).store = some (insertA st k (StoreEntry.obj [("value", v)])) ∧
      ∀ k'', k'' ≠ k →
        lookupA (insertA st k (StoreEntry.obj [("value", v)])) k''
          = lookupA st k'') := by
  refine ⟨?_, ?_, ?_⟩
  · simp [SettingsManager.set, SettingsManager.get,
      lookupA_insertA_ne _ _ _ _ hne]
  · intro h
    simp [SettingsManager.set, SettingsManager.save_setting, h]
  · intro st h
    exact ⟨by simp [SettingsManager.set, SettingsManager.save_setting, h],
      fun k'' h'' => lookupA_insertA_ne _ _ _ _ h''⟩

/-- Witness for C10: setting `font_name` on an initialized store leaves
`font_scale` untouched in memory and in the backing store. -/
theorem C10_witness :
    (("font_scale" : String) ≠ "font_name") ∧
    ((⟨some [("font_scale", StoreEntry.nonObj)],
        DEFAULT_SETTINGS "Roboto"⟩ : SettingsManager).set "font_name"
          (Value.str "Inter")).get "Roboto" "font_scale"
      = (⟨some [("font_scale", StoreEntry.nonObj)],
          DEFAULT_SETTINGS "Roboto"⟩ : SettingsManager).get "Roboto"
          "font_scale" ∧
    lookupA (insertA [("font_scale", StoreEntry.nonObj)] "font_name"
        (StoreEntry.obj [("value", Value.str "Inter")])) "font_scale"
      = lookupA [("font_scale", StoreEntry.nonObj)] "font_scale" :=
  ⟨by decide,
    (C10_set_frame "Roboto"
      ⟨some [("font_scale", StoreEntry.nonObj)], DEFAULT_SETTINGS "Roboto"⟩
      "font_name" (Value.str "Inter") "font_scale" Value.null (by decide)).1,
    ((C10_set_frame "Roboto"
      ⟨some [("font_scale", StoreEntry.nonObj)], DEFAULT_SETTINGS "Roboto"⟩
      "font_name" (Value.str "Inter") "font_scale" Value.null (by decide)).2.2
      [("font_scale", StoreEntry.nonObj)] rfl).2 "font_scale" (by decide)⟩

/-- C2: a value persisted by `set(k, v)` on an initialized store
survives re-initialization: a fresh instance that runs `initialize()`
against the resulting backing contents satisfies `get(k) = v`, for every
key `k` of Default Settings. -/
theorem C2_persistence_roundtrip (df : String) (s : SettingsManager)
    (st : Store) (k : String) (v dv : Value)
    (hs : s.store = some st)
    (hk : lookupA (DEFAULT_SETTINGS df) k = some dv) :
    ∀ st', (s.set k v).store = some st' →
      ((SettingsManager.mk0 df).initStore df st').get df k = v := by
  intro st' hst'
  have hst'eq : st' = insertA st k (StoreEntry.obj [("value", v)]) := by
    simp [SettingsManager.set, SettingsManager.save_setting, hs] at hst'
    exact hst'.symm
  subst hst'eq
  have h := lookupA_initStore df (insertA st k (StoreEntry.obj [("value", v)]))
    (SettingsManager.mk0 df) k dv hk
  have h2 : loadOne (insertA st k (StoreEntry.obj [("value", v)])) k dv = v := by
    simp [loadOne, lookupA]
  rw [h2] at h
  simp [SettingsManager.get, h]

/-- Witness for C2: `font_name := Inter` persisted on an initialized
store is read back by a fresh instance. -/
theorem C2_witness :
    ((⟨some [], DEFAULT_SETTINGS "Roboto"⟩ : SettingsManager).store
      = some []) ∧
    (lookupA (DEFAULT_SETTINGS "Roboto") "font_name"
      = some (Value.str "Roboto")) ∧
    (((⟨some [], DEFAULT_SETTINGS "Roboto"⟩ : SettingsManager).set
        "font_name" (Value.str "Inter")).store
      = some [("font_name", StoreEntry.obj [("value", Value.str "Inter")])]) ∧
    ((SettingsManager.mk0 "Roboto").initStore "Roboto"
        [("font_name", StoreEntry.obj [("value", Value.str "Inter")])]).get
      "Roboto" "font_name" = Value.str "Inter" :=
  ⟨rfl, by decide, by decide,
    C2_persistence_roundtrip "Roboto" ⟨some [], DEFAULT_SETTINGS "Roboto"⟩ []
      "font_name" (Value.str "Inter") (Value.str "Roboto") rfl (by decide)
      [("font_name", StoreEntry.obj [("value", Value.str "Inter")])]
      (by decide)⟩

/-- C5: per-key loading semantics of `initialize()`: for every key `k`
of Default Settings with default `dv`, the in-memory record ends up with
the stored `"value"` field when the backing store has `k` as an object
carrying one; with the default when the object lacks the `"value"`
field, when reading the entry raises (the entry is not an object), or
when the store lacks `k`.  The loading phase is total — no read error
escapes it. -/
theorem C5_load_semantics (df : String) (file : Store) (s : SettingsManager)
    (k : String) (dv : Value)
    (hk : lookupA (DEFAULT_SETTINGS df) k = some dv) :
    ((s.initStore df file).store = some file) ∧
    (∀ fields v, lookupA file k = some (StoreEntry.obj fields) →
        lookupA fields "value" = some v →
        lookupA (s.initStore df file).settings k = some v) ∧
    (∀ fields, lookupA file k = some (StoreEntry.obj fields) →
        lookupA fields "value" = none →
        lookupA (s.initStore df file).settings k = some dv) ∧
    (lookupA file k = some StoreEntry.nonObj →
        lookupA (s.initStore df file).settings k = some dv) ∧
    (lookupA file k = none →
        lookupA (s.initStore df file).settings k = some dv) := by
  have h := lookupA_initStore df file s k dv hk
  refine ⟨store_after_initStore df file s, ?_, ?_, ?_, ?_⟩
  · intro fields v h1 h2
    rw [h]
    simp [loadOne, h1, h2]
  · intro fields h1 h2
    rw [h]
    simp [loadOne, h1, h2]
  · intro h1
    rw [h]
    simp [loadOne, h1]
  · intro h1
    rw [h]
    simp [loadOne, h1]

/-- Witness for C5: one backing store exercising a stored value, an
object without a `"value"` field, and an unreadable entry, plus an empty
store for the missing-key case. -/
theorem C5_witness :
    lookupA (DEFAULT_SETTINGS "Roboto") "font_name"
      = some (Value.str "Roboto") ∧
    lookupA (((SettingsManager.mk0 "Roboto").initStore "Roboto"
        [("font_name", StoreEntry.obj [("value", Value.str "Inter")]),
         ("font_scale", StoreEntry.obj []),
         ("launch_maximized", StoreEntry.nonObj)]).settings) "font_name"
      = some (Value.str "Inter") ∧
    lookupA (((SettingsManager.mk0 "Roboto").initStore "Roboto"
        [("font_name", StoreEntry.obj [("value", Value.str "Inter")]),
         ("font_scale", StoreEntry.obj []),
         ("launch_maximized", StoreEntry.nonObj)]).settings) "font_scale"
      = some (Value.num 1) ∧
    lookupA (((SettingsManager.mk0 "Roboto").initStore "Roboto"
        [("font_name", StoreEntry.obj [("value", Value.str "Inter")]),
         ("font_scale", StoreEntry.obj []),
         ("launch_maximized", StoreEntry.nonObj)]).settings)
      "launch_maximized" = some (Value.bool false) ∧
    lookupA (((SettingsManager.mk0 "Roboto").initStore "Roboto" []).settings)
      "font_name" = some (Value.str "Roboto") :=
  ⟨by decide,
    (C5_load_semantics "Roboto"
      [("font_name", StoreEntry.obj [("value", Value.str "Inter")]),
       ("font_scale", StoreEntry.obj []),
       ("launch_maximized", StoreEntry.nonObj)]
      (SettingsManager.mk0 "Roboto") "font_name" (Value.str "Roboto")
      (by decide)).2.1 [("value", Value.str "Inter")] (Value.str "Inter")
      (by decide) (by decide),
    (C5_load_semantics "Roboto"
      [("font_name", StoreEntry.obj [("value", Value.str "Inter")]),
       ("font_scale", StoreEntry.obj []),
       ("launch_maximized", StoreEntry.nonObj)]
      (SettingsManager.mk0 "Roboto") "font_scale" (Value.num 1)
      (by decide)).2.2.1 [] (by decide) (by decide),
    (C5_load_semantics "Roboto"
      [("font_name", StoreEntry.obj [("value", Value.str "Inter")]),
       ("font_scale", StoreEntry.obj []),
       ("launch_maximized", StoreEntry.nonObj)]
      (SettingsManager.mk0 "Roboto") "launch_maximized" (Value.bool false)
      (by decide)).2.2.2.1 (by decide),
    (C5_load_semantics "Roboto" [] (SettingsManager.mk0 "Roboto") "font_name"
      (Value.str "Roboto") (by decide)).2.2.2.2 (by decide)⟩

/-- C4 counterexample: `get` does read the in-memory record — two states
with the same backing store but different in-memory records give
different `get` results, refuting the conjunct of the claim that `get`
"never reads ... the in-memory record". -/
theorem C4_counterexample :
    (SettingsManager.mk none (DEFAULT_SETTINGS "Roboto")).store
        = (SettingsManager.mk none
            (insertA (DEFAULT_SETTINGS "Roboto") "font_name"
              (Value.str "Inter"))).store ∧
    (SettingsManager.mk none (DEFAULT_SETTINGS "Roboto")).get "Roboto"
        "font_name"
      ≠ (SettingsManager.mk none
          (insertA (DEFAULT_SETTINGS "Roboto") "font_name"
            (Value.str "Inter"))).get "Roboto" "font_name" :=
  ⟨rfl, by decide⟩

/-- C4 amended: `get(key, default)` returns the in-memory value for
`key` if present; otherwise the caller-supplied default; otherwise the
module-level default for the key if no caller default is given;
otherwise `None` — in particular `None` for an unrecognized key with no
caller default.  It never raises (it is total), it never reads or writes
the backing store, and it never *writes* the in-memory record (though it
does read it): both are visible in the model, where `get` takes the
state and returns only a value. -/
theorem C4_amended_get_semantics (df : String) (s : SettingsManager)
    (k : String) (d : Value) :
    (∀ v, lookupA s.settings k = some v → s.get df k d = v) ∧
    (lookupA s.settings k = none → d ≠ Value.null → s.get df k d = d) ∧
    (∀ dv, lookupA s.settings k = none → d = Value.null →
        lookupA (DEFAULT_SETTINGS df) k = some dv → s.get df k d = dv) ∧
    (lookupA s.settings k = none → d = Value.null →
        lookupA (DEFAULT_SETTINGS df) k = none → s.get df k d = Value.null) ∧
    (lookupA s.settings k = none → lookupA (DEFAULT_SETTINGS df) k = none →
        s.get df k = Value.null) := by
  refine ⟨?_, ?_, ?_, ?_, ?_⟩
  · intro v hv
    simp [SettingsManager.get, hv]
  · intro h1 h2
    simp [SettingsManager.get, h1, h2]
  · intro dv h1 h2 h3
    subst h2
    simp [SettingsManager.get, h1, h3]
  · intro h1 h2 h3
    subst h2
    simp [SettingsManager.get, h1, h3]
  · intro h1 h2
    simp [SettingsManager.get, h1, h2]

/-- Witness for C4 amended: a recognized key on a fresh store and an
unrecognized key with no caller default. -/
theorem C4_witness :
    lookupA (SettingsManager.mk0 "Roboto").settings "font_name"
      = some (Value.str "Roboto") ∧
    (SettingsManager.mk0 "Roboto").get "Roboto" "font_name"
      = Value.str "Roboto" ∧
    lookupA (SettingsManager.mk0 "Roboto").settings "no_such_key" = none ∧
    lookupA (DEFAULT_SETTINGS "Roboto") "no_such_key" = none ∧
    (SettingsManager.mk0 "Roboto").get "Roboto" "no_such_key" = Value.null :=
  ⟨by decide,
    (C4_amended_get_semantics "Roboto" (SettingsManager.mk0 "Roboto")
      "font_name" Value.null).1 (Value.str "Roboto") (by decide),
    by decide, by decide,
    (C4_amended_get_semantics "Roboto" (SettingsManager.mk0 "Roboto")
      "no_such_key" Value.null).2.2.2.2 (by decide) (by decide)⟩

/-- C3 counterexample: `set('font_name', None)` is an operation of the
store after which `get('font_name')` yields `None` for the recognized
key `font_name`, so the invariant as claimed is not preserved by every
operation. -/
theorem C3_counterexample :
    ((SettingsManager.mk0 "Roboto").set "font_name" Value.null).get "Roboto"
      "font_name" = Value.null := by decide

/-- C3 amended: every operation keeps every key of Default Settings
bound in the in-memory record to a value that is not `None` — hence
`get(k)` never yields `None` for a recognized key — provided `set` (and
each typed property setter) is only given non-`None` values and the
backing store read by `initialize()` carries no stored `None` values. -/
theorem C3_amended_invariant (df : String) :
    dsResolvable df (SettingsManager.mk0 df) ∧
    (∀ (s : SettingsManager) (file : Store), storeNonNull file →
        dsResolvable df (s.initStore df file)) ∧
    (∀ (s : SettingsManager) (k : String) (v : Value), v ≠ Value.null →
        dsResolvable df s → dsResolvable df (s.set k v)) ∧
    (∀ (s : SettingsManager) (v : Value), v ≠ Value.null →
        dsResolvable df s → dsResolvable df (s.set_font_name v)) ∧
    (∀ (s : SettingsManager) (v : Value), v ≠ Value.null →
        dsResolvable df s → dsResolvable df (s.set_font_scale v)) ∧
    (∀ (s : SettingsManager) (v : Value), v ≠ Value.null →
        dsResolvable df s → dsResolvable df (s.set_launch_maximized v)) ∧
    (∀ (s : SettingsManager) (k : String) (d : Value), dsResolvable df s →
        (lookupA (DEFAULT_SETTINGS df) k).isSome = true →
        s.get df k d ≠ Value.null) := by
  have hmk : dsResolvable df (SettingsManager.mk0 df) := by
    intro k dv hk
    exact ⟨dv, hk, DS_default_ne_null df k dv hk⟩
  have hset : ∀ (s : SettingsManager) (k : String) (v : Value),
      v ≠ Value.null → dsResolvable df s → dsResolvable df (s.set k v) := by
    intro s k v hv hs k' dv hk
    by_cases h : k' = k
    · subst h
      exact ⟨v, by simp [SettingsManager.set], hv⟩
    · obtain ⟨w, hw, hwn⟩ := hs k' dv hk
      refine ⟨w, ?_, hwn⟩
      simpa [SettingsManager.set, lookupA_insertA_ne _ _ _ _ h] using hw
  have hinit : ∀ (s : SettingsManager) (file : Store), storeNonNull file →
      dsResolvable df (s.initStore df file) := by
    intro s file hnn k dv hk
    refine ⟨loadOne file k dv, lookupA_initStore df file s k dv hk, ?_⟩
    have hdv := DS_default_ne_null df k dv hk
    cases hfile : lookupA file k with
    | none => simpa [loadOne, hfile] using hdv
    | some e =>
        cases e with
        | nonObj => simpa [loadOne, hfile] using hdv
        | obj fields =>
            cases hval : lookupA fields "value" with
            | none => simpa [loadOne, hfile, hval] using hdv
            | some v =>
                simpa [loadOne, hfile, hval] using hnn k fields hfile v hval
  have hget : ∀ (s : SettingsManager) (k : String) (d : Value),
      dsResolvable df s → (lookupA (DEFAULT_SETTINGS df) k).isSome = true →
      s.get df k d ≠ Value.null := by
    intro s k d hs hk
    obtain ⟨dv, hdv⟩ := Option.isSome_iff_exists.mp hk
    obtain ⟨v, hv, hvn⟩ := hs k dv hdv
    simpa [SettingsManager.get, hv] using hvn
  exact ⟨hmk, hinit, hset, fun s v => hset s "font_name" v,
    fun s v => hset s "font_scale" v,
    fun s v => hset s "launch_maximized" v, hget⟩

/-- Witness for C3 amended: the invariant holds on a fresh store and a
well-typed `set` keeps `get` away from `None`. -/
theorem C3_witness :
    dsResolvable "Roboto" (SettingsManager.mk0 "Roboto") ∧
    ((SettingsManager.mk0 "Roboto").set "font_scale" (Value.num 2)).get
      "Roboto" "font_scale" ≠ Value.null :=
  ⟨(C3_amended_invariant "Roboto").1,
    (C3_amended_invariant "Roboto").2.2.2.2.2.2
      ((SettingsManager.mk0 "Roboto").set "font_scale" (Value.num 2))
      "font_scale" Value.null
      ((C3_amended_invariant "Roboto").2.2.1 (SettingsManager.mk0 "Roboto")
        "font_scale" (Value.num 2) (by decide)
        (C3_amended_invariant "Roboto").1)
      (by decide)⟩

/-- C7: `set(key, value)` updates the in-memory record first in every
outcome; with no backing store open, persistence is silently skipped and
the call succeeds with only the in-memory update; with a backing store
open, a failing write propagates as an error to the caller with the
in-memory update already applied (no rollback) and the store contents
unchanged, while a successful write is exactly `set`. -/
theorem C7_set_write_failure (df : String) (s : SettingsManager)
    (k : String) (v : Value) :
    (s.store = none → ∀ b, s.setRun k v b
        = Except.ok ⟨none, insertA s.settings k v⟩) ∧
    (∀ st, s.store = some st → s.setRun k v true
        = Except.error ⟨some st, insertA s.settings k v⟩) ∧
    (s.setRun k v false = Except.ok (s.set k v)) ∧
    (∀ b, (match s.setRun k v b with
            | Except.ok r => r.settings
            | Except.error r => r.settings) = insertA s.settings k v) ∧
    (∀ b r, s.setRun k v b = Except.ok r ∨ s.setRun k v b = Except.error r →
        r.get df k = v) := by
  obtain ⟨os, mem⟩ := s
  cases os with
  | none =>
      refine ⟨fun _ _ => rfl, fun st h => by simp at h, rfl, fun b => rfl, ?_⟩
      intro b r hr
      have hr' : r = ⟨none, insertA mem k v⟩ := by
        rcases hr with h | h
        · cases h; rfl
        · cases h
      subst hr'
      simp [SettingsManager.get]
  | some st =>
      refine ⟨fun h => by simp at h, fun st' h => ?_, rfl, fun b => ?_, ?_⟩
      · have hst : st' = st := by
          have h2 : st = st' := by simpa using h
          exact h2.symm
        subst hst
        rfl
      · cases b <;> rfl
      · intro b r hr
        have hr' : r.settings = insertA mem k v := by
          cases b
          · rcases hr with h | h
            · cases h; rfl
            · cases h
          · rcases hr with h | h
            · cases h
            · cases h; rfl
        simp [SettingsManager.get, hr']

/-- Witness for C7: a skipped persist on an uninitialized store and a
propagated write failure on an initialized one. -/
theorem C7_witness :
    ((SettingsManager.mk0 "Roboto").setRun "font_name" (Value.str "Inter")
        true
      = Except.ok ⟨none, insertA (DEFAULT_SETTINGS "Roboto") "font_name"
          (Value.str "Inter")⟩) ∧
    ((⟨some [], DEFAULT_SETTINGS "Roboto"⟩ : SettingsManager).setRun
        "font_name" (Value.str "Inter") true
      = Except.error ⟨some [], insertA (DEFAULT_SETTINGS "Roboto")
          "font_name" (Value.str "Inter")⟩) ∧
    (SettingsManager.get ⟨some [], insertA (DEFAULT_SETTINGS "Roboto")
        "font_name" (Value.str "Inter")⟩ "Roboto" "font_name"
      = Value.str "Inter") :=
  ⟨(C7_set_write_failure "Roboto" (SettingsManager.mk0 "Roboto") "font_name"
      (Value.str "Inter")).1 rfl true,
    (C7_set_write_failure "Roboto"
      ⟨some [], DEFAULT_SETTINGS "Roboto"⟩ "font_name"
      (Value.str "Inter")).2.1 [] rfl,
    (C7_set_write_failure "Roboto"
      ⟨some [], DEFAULT_SETTINGS "Roboto"⟩ "font_name"
      (Value.str "Inter")).2.2.2.2 true
      ⟨some [], insertA (DEFAULT_SETTINGS "Roboto") "font_name"
        (Value.str "Inter")⟩ (Or.inr rfl)⟩
